import Mathlib

/-!
Verification of the spatial-constraint engine of the pocket-planner
backend, shallowly embedded from `backend/app`:
geometry kernel (`core/geometry.py`), data model (`models/room.py`,
`models/api.py`), vision post-processing (`agents/vision_node.py`) and
the optimize/render route boundaries (`routes/optimize.py`,
`routes/render.py`).  Bounding boxes are integer lists as in the
Pydantic model; geometric computation is done over `ℚ` (the code uses
Shapely over floats), with Euclidean distances represented as
`Real.sqrt` of an exactly-computed rational squared distance.
-/

namespace PocketPlanner

/-- `ObjectType` enum from `models/room.py`: movable or structural. -/
inductive ObjectType where
  | movable
  | structural
deriving DecidableEq, Repr

/-- `RoomObject` from `models/room.py`: id, label, bbox `[x, y, width, height]`,
type, orientation, lock flag.  The bbox is kept as a list of integers as in
the Pydantic model (`List[int]`); validation constrains its length to 4. -/
structure RoomObject where
  id : String
  label : String
  bbox : List Int
  type : ObjectType := .movable
  orientation : Int := 0
  is_locked : Bool := false
deriving DecidableEq, Repr

/-- `RoomObject.x` property: `bbox[0]`. -/
def RoomObject.x (o : RoomObject) : Int := o.bbox.getD 0 0

/-- `RoomObject.y` property: `bbox[1]`. -/
def RoomObject.y (o : RoomObject) : Int := o.bbox.getD 1 0

/-- `RoomObject.width` property: `bbox[2]`. -/
def RoomObject.width (o : RoomObject) : Int := o.bbox.getD 2 0

/-- `RoomObject.height` property: `bbox[3]`. -/
def RoomObject.height (o : RoomObject) : Int := o.bbox.getD 3 0

/-- An axis-aligned rectangle by its bounds, the shape Shapely's
`box(minx, miny, maxx, maxy)` builds in `bbox_to_polygon`. -/
structure Rect where
  minx : ℚ
  miny : ℚ
  maxx : ℚ
  maxy : ℚ
deriving DecidableEq, Repr

/-- `bbox_to_polygon` from `core/geometry.py`: `[x, y, w, h] ↦ box(x, y, x+w, y+h)`.
Unpacking `x, y, w, h = bbox` presumes a length-4 list. -/
def bbox_to_polygon (bbox : List Int) : Rect :=
  let x : ℚ := bbox.getD 0 0
  let y : ℚ := bbox.getD 1 0
  let w : ℚ := bbox.getD 2 0
  let h : ℚ := bbox.getD 3 0
  ⟨x, y, x + w, y + h⟩

/-- `object_to_polygon` from `core/geometry.py`. -/
def object_to_polygon (o : RoomObject) : Rect := bbox_to_polygon o.bbox

/-- Closed axis-aligned rectangles have a common point (Shapely
`intersects`, touching boundaries included). -/
def Rect.Intersects (r s : Rect) : Prop :=
  r.minx ≤ s.maxx ∧ s.minx ≤ r.maxx ∧ r.miny ≤ s.maxy ∧ s.miny ≤ r.maxy

instance (r s : Rect) : Decidable (r.Intersects s) := by
  unfold Rect.Intersects; infer_instance

/-- `check_overlap` from `core/geometry.py`: `poly_a.intersects(poly_b)`. -/
def check_overlap (a b : RoomObject) : Bool :=
  decide ((object_to_polygon a).Intersects (object_to_polygon b))

/-- `calculate_overlap_area` from `core/geometry.py`: area of the
intersection of the two rectangles (0 when disjoint). -/
def calculate_overlap_area (a b : RoomObject) : ℚ :=
  let r := object_to_polygon a
  let s := object_to_polygon b
  max 0 (min r.maxx s.maxx - max r.minx s.minx) *
    max 0 (min r.maxy s.maxy - max r.miny s.miny)

/-- Horizontal (resp. vertical) separation of two closed intervals:
`0` when they meet. -/
def intervalGap (a1 a2 b1 b2 : ℚ) : ℚ := max 0 (max a1 b1 - min a2 b2)

/-- Squared Euclidean distance between two axis-aligned rectangles. -/
def clearanceSq (a b : RoomObject) : ℚ :=
  let r := object_to_polygon a
  let s := object_to_polygon b
  intervalGap r.minx r.maxx s.minx s.maxx ^ 2 +
    intervalGap r.miny r.maxy s.miny s.maxy ^ 2

/-- `calculate_clearance` from `core/geometry.py`: Shapely
`poly_a.distance(poly_b)`, the minimum Euclidean distance between the
rectangles (0 when they overlap or touch). -/
noncomputable def calculate_clearance (a b : RoomObject) : ℝ :=
  Real.sqrt (clearanceSq a b)

/-- A well-formed rectangular object: a length-4 bbox with strictly
positive width and height. -/
def WellFormed (o : RoomObject) : Prop :=
  o.bbox.length = 4 ∧ 0 < o.width ∧ 0 < o.height

instance (o : RoomObject) : Decidable (WellFormed o) := by
  unfold WellFormed; infer_instance

/-- Sample object of the spec's overlap scenario: `bbox=[0,0,100,100]`. -/
def sampleA : RoomObject := ⟨"a", "bed", [0, 0, 100, 100], .movable, 0, false⟩

/-- Sample object of the spec's overlap scenario: `bbox=[50,50,100,100]`. -/
def sampleB : RoomObject := ⟨"b", "sofa", [50, 50, 100, 100], .movable, 0, false⟩

/-- Sample object of the spec's separation scenario: `bbox=[150,0,50,50]`. -/
def sampleC : RoomObject := ⟨"c", "desk", [150, 0, 50, 50], .movable, 0, false⟩

/-- The squared rectangle distance is a sum of squares, hence nonnegative. -/
theorem clearanceSq_nonneg (a b : RoomObject) : 0 ≤ clearanceSq a b := by
  unfold clearanceSq
  positivity

theorem clearanceSq_comm (a b : RoomObject) : clearanceSq a b = clearanceSq b a := by
  simp only [clearanceSq, intervalGap]
  rw [max_comm (object_to_polygon a).minx, min_comm (object_to_polygon a).maxx,
    max_comm (object_to_polygon a).miny, min_comm (object_to_polygon a).maxy]

/-- C1: for well-formed rectangular objects, the overlap test, the overlap
area and the clearance are symmetric in their two arguments. -/
theorem overlap_and_clearance_symmetric (a b : RoomObject)
    (ha : WellFormed a) (hb : WellFormed b) :
    check_overlap a b = check_overlap b a ∧
    calculate_overlap_area a b = calculate_overlap_area b a ∧
    calculate_clearance a b = calculate_clearance b a := by
  refine ⟨?_, ?_, ?_⟩
  · unfold check_overlap
    rw [decide_eq_decide]
    unfold Rect.Intersects
    tauto
  · simp only [calculate_overlap_area]
    rw [max_comm (object_to_polygon a).minx, min_comm (object_to_polygon a).maxx,
      max_comm (object_to_polygon a).miny, min_comm (object_to_polygon a).maxy]
  · unfold calculate_clearance
    rw [clearanceSq_comm]

/-- Witness for C1 at the spec's overlap scenario objects. -/
theorem overlap_and_clearance_symmetric_witness :
    WellFormed sampleA ∧ WellFormed sampleB ∧
    (check_overlap sampleA sampleB = check_overlap sampleB sampleA ∧
      calculate_overlap_area sampleA sampleB = calculate_overlap_area sampleB sampleA ∧
      calculate_clearance sampleA sampleB = calculate_clearance sampleB sampleA) :=
  ⟨by decide, by decide,
    overlap_and_clearance_symmetric sampleA sampleB (by decide) (by decide)⟩

/-- C2: clearance is nonnegative; positive overlap area forces zero
clearance; zero clearance forces the overlap test to report true (so
rectangles that merely touch count as intersecting). -/
theorem overlap_clearance_consistency (a b : RoomObject)
    (ha : WellFormed a) (hb : WellFormed b) :
    0 ≤ calculate_clearance a b ∧
    (0 < calculate_overlap_area a b → calculate_clearance a b = 0) ∧
    (calculate_clearance a b = 0 → check_overlap a b = true) := by
  set r := object_to_polygon a with hr
  set s := object_to_polygon b with hs
  refine ⟨Real.sqrt_nonneg _, ?_, ?_⟩
  · intro hpos
    unfold calculate_overlap_area at hpos
    have hfac := mul_pos_iff.mp hpos
    have hx : 0 < min r.maxx s.maxx - max r.minx s.minx := by
      rcases hfac with ⟨h1, _⟩ | ⟨h1, _⟩
      · rcases lt_max_iff.mp h1 with h | h
        · exact absurd h (lt_irrefl 0)
        · exact h
      · exact absurd h1 (not_lt.mpr (le_max_left 0 _))
    have hy : 0 < min r.maxy s.maxy - max r.miny s.miny := by
      rcases hfac with ⟨_, h2⟩ | ⟨h1, _⟩
      · rcases lt_max_iff.mp h2 with h | h
        · exact absurd h (lt_irrefl 0)
        · exact h
      · exact absurd h1 (not_lt.mpr (le_max_left 0 _))
    have hgx : intervalGap r.minx r.maxx s.minx s.maxx = 0 := by
      unfold intervalGap
      exact max_eq_left (by linarith)
    have hgy : intervalGap r.miny r.maxy s.miny s.maxy = 0 := by
      unfold intervalGap
      exact max_eq_left (by linarith)
    have hq : clearanceSq a b = 0 := by
      simp only [clearanceSq]
      rw [← hr, ← hs, hgx, hgy]
      ring
    unfold calculate_clearance
    rw [hq]
    simp
  · intro hzero
    unfold calculate_clearance at hzero
    have hq0 : clearanceSq a b = 0 := by
      have hle : ((clearanceSq a b : ℚ) : ℝ) ≤ 0 := Real.sqrt_eq_zero'.mp hzero
      have hge : (0 : ℚ) ≤ clearanceSq a b := clearanceSq_nonneg a b
      exact_mod_cast le_antisymm (by exact_mod_cast hle) hge
    have hsum := hq0
    simp only [clearanceSq] at hsum
    rw [← hr, ← hs] at hsum
    have hgx : intervalGap r.minx r.maxx s.minx s.maxx = 0 := by
      have h1 : (0:ℚ) ≤ intervalGap r.minx r.maxx s.minx s.maxx ^ 2 := sq_nonneg _
      have h2 : (0:ℚ) ≤ intervalGap r.miny r.maxy s.miny s.maxy ^ 2 := sq_nonneg _
      have := (add_eq_zero_iff_of_nonneg h1 h2).mp hsum
      exact (pow_eq_zero_iff two_ne_zero).mp this.1
    have hgy : intervalGap r.miny r.maxy s.miny s.maxy = 0 := by
      have h1 : (0:ℚ) ≤ intervalGap r.minx r.maxx s.minx s.maxx ^ 2 := sq_nonneg _
      have h2 : (0:ℚ) ≤ intervalGap r.miny r.maxy s.miny s.maxy ^ 2 := sq_nonneg _
      have := (add_eq_zero_iff_of_nonneg h1 h2).mp hsum
      exact (pow_eq_zero_iff two_ne_zero).mp this.2
    have hxle : max r.minx s.minx - min r.maxx s.maxx ≤ 0 := by
      by_contra hlt
      push_neg at hlt
      have : intervalGap r.minx r.maxx s.minx s.maxx > 0 := by
        unfold intervalGap
        exact lt_max_of_lt_right hlt
      linarith
    have hyle : max r.miny s.miny - min r.maxy s.maxy ≤ 0 := by
      by_contra hlt
      push_neg at hlt
      have : intervalGap r.miny r.maxy s.miny s.maxy > 0 := by
        unfold intervalGap
        exact lt_max_of_lt_right hlt
      linarith
    have hxm : max r.minx s.minx ≤ min r.maxx s.maxx := by linarith
    have hym : max r.miny s.miny ≤ min r.maxy s.maxy := by linarith
    unfold check_overlap
    rw [decide_eq_true_eq]
    rw [← hr, ← hs]
    exact ⟨le_trans (le_max_left _ _) (le_trans hxm (min_le_right _ _)),
      le_trans (le_max_right _ _) (le_trans hxm (min_le_left _ _)),
      le_trans (le_max_left _ _) (le_trans hym (min_le_right _ _)),
      le_trans (le_max_right _ _) (le_trans hym (min_le_left _ _))⟩

/-- Witness for C2 at the spec's overlap scenario objects. -/
theorem overlap_clearance_consistency_witness :
    WellFormed sampleA ∧ WellFormed sampleB ∧
    (0 ≤ calculate_clearance sampleA sampleB ∧
      (0 < calculate_overlap_area sampleA sampleB →
        calculate_clearance sampleA sampleB = 0) ∧
      (calculate_clearance sampleA sampleB = 0 →
        check_overlap sampleA sampleB = true)) :=
  ⟨by decide, by decide,
    overlap_clearance_consistency sampleA sampleB (by decide) (by decide)⟩

/-- C7: the spec's two concrete scenarios.  A=[0,0,100,100] and
B=[50,50,100,100] overlap with area 2500 and clearance 0; A and
C=[150,0,50,50] are 50 apart with overlap area 0. -/
theorem concrete_overlap_and_separation_scenarios :
    calculate_overlap_area sampleA sampleB = 2500 ∧
    calculate_clearance sampleA sampleB = 0 ∧
    calculate_clearance sampleA sampleC = 50 ∧
    calculate_overlap_area sampleA sampleC = 0 := by
  refine ⟨?_, ?_, ?_, ?_⟩
  · norm_num [calculate_overlap_area, object_to_polygon, bbox_to_polygon,
      sampleA, sampleB, min_def, max_def]
  · have hq : clearanceSq sampleA sampleB = 0 := by
      norm_num [clearanceSq, intervalGap, object_to_polygon, bbox_to_polygon,
        sampleA, sampleB, min_def, max_def]
    unfold calculate_clearance
    rw [hq]
    simp
  · have hq : clearanceSq sampleA sampleC = 2500 := by
      norm_num [clearanceSq, intervalGap, object_to_polygon, bbox_to_polygon,
        sampleA, sampleC, min_def, max_def]
    unfold calculate_clearance
    rw [hq]
    have h50 : ((2500 : ℚ) : ℝ) = 50 ^ 2 := by norm_num
    rw [h50, Real.sqrt_sq (by norm_num : (0:ℝ) ≤ 50)]
  · norm_num [calculate_overlap_area, object_to_polygon, bbox_to_polygon,
      sampleA, sampleC, min_def, max_def]

/-- `find_collisions` from `core/geometry.py`: for each index `i` scan
`objects[i+1:]` and record `(obj_a.id, obj_b.id, overlap)` whenever the
overlap area is positive, appending in loop order. -/
def find_collisions : List RoomObject → List (String × String × ℚ)
  | [] => []
  | a :: rest =>
      (rest.filterMap fun b =>
        if 0 < calculate_overlap_area a b then
          some (a.id, b.id, calculate_overlap_area a b)
        else none) ++
        find_collisions rest

/-- Spec-side description of `pairwiseCollisions`: all pairs of indices
`i < j` of the input list, in lexicographic `(i, j)` order, keeping
exactly those with positive overlap area. -/
def pairwiseCollisionsSpec (objects : List RoomObject) :
    List (String × String × ℚ) :=
  objects.enum.flatMap fun p =>
    objects.enum.filterMap fun q =>
      if p.1 < q.1 ∧ 0 < calculate_overlap_area p.2 q.2 then
        some (p.2.id, q.2.id, calculate_overlap_area p.2 q.2)
      else none

theorem filterMap_enumFrom_snd {γ : Type} (l : List RoomObject) (n : ℕ)
    (H : RoomObject → Option γ) :
    (l.enumFrom n).filterMap (fun q => H q.2) = l.filterMap H := by
  induction l generalizing n with
  | nil => rfl
  | cons a t ih =>
      have hcons : (a :: t).enumFrom n = (n, a) :: t.enumFrom (n + 1) := rfl
      rw [hcons, List.filterMap_cons, List.filterMap_cons]
      cases H a <;> simp [ih]

theorem fst_le_of_mem_enumFrom {α : Type} {q : ℕ × α} {l : List α} {n : ℕ}
    (hq : q ∈ l.enumFrom n) : n ≤ q.1 := by
  obtain ⟨i, x⟩ := q
  exact (List.mk_mem_enumFrom_iff_le_and_getElem?_sub.mp hq).1

theorem pairwise_enumFrom_eq_find_collisions (l : List RoomObject) (n : ℕ) :
    ((l.enumFrom n).flatMap fun p =>
      (l.enumFrom n).filterMap fun q =>
        if p.1 < q.1 ∧ 0 < calculate_overlap_area p.2 q.2 then
          some (p.2.id, q.2.id, calculate_overlap_area p.2 q.2)
        else none) = find_collisions l := by
  induction l generalizing n with
  | nil => rfl
  | cons a t ih =>
      have hcons : (a :: t).enumFrom n = (n, a) :: t.enumFrom (n + 1) := rfl
      rw [hcons, List.flatMap_cons]
      have hhead :
          (((n, a) :: t.enumFrom (n + 1)).filterMap fun q =>
            if n < q.1 ∧ 0 < calculate_overlap_area a q.2 then
              some (a.id, q.2.id, calculate_overlap_area a q.2)
            else none) =
          t.filterMap fun b =>
            if 0 < calculate_overlap_area a b then
              some (a.id, b.id, calculate_overlap_area a b)
            else none := by
        rw [List.filterMap_cons]
        simp only [lt_irrefl, false_and, if_false]
        rw [List.filterMap_congr (g := fun q =>
          (fun b => if 0 < calculate_overlap_area a b then
            some (a.id, b.id, calculate_overlap_area a b) else none) q.2)]
        · exact filterMap_enumFrom_snd t (n + 1) (fun b =>
            if 0 < calculate_overlap_area a b then
              some (a.id, b.id, calculate_overlap_area a b)
            else none)
        · intro q hq
          have hn : n < q.1 := lt_of_lt_of_le (Nat.lt_succ_self n)
            (fst_le_of_mem_enumFrom hq)
          simp [hn]
      have htail :
          (List.flatMap (t.enumFrom (n + 1)) fun p =>
            ((n, a) :: t.enumFrom (n + 1)).filterMap fun q =>
              if p.1 < q.1 ∧ 0 < calculate_overlap_area p.2 q.2 then
                some (p.2.id, q.2.id, calculate_overlap_area p.2 q.2)
              else none) = find_collisions t := by
        rw [List.flatMap_congr (g := fun p =>
          (t.enumFrom (n + 1)).filterMap fun q =>
            if p.1 < q.1 ∧ 0 < calculate_overlap_area p.2 q.2 then
              some (p.2.id, q.2.id, calculate_overlap_area p.2 q.2)
            else none)]
        · exact ih (n + 1)
        · intro p hp
          rw [List.filterMap_cons]
          have hnp : ¬ p.1 < n :=
            not_lt.mpr (le_trans (Nat.le_succ n) (fst_le_of_mem_enumFrom hp))
          simp [hnp]
      rw [hhead, htail]
      rfl

/-- C6: `find_collisions` returns exactly the pairs of distinct objects
with strictly positive overlap area, each once, first element earlier
in the input list, in lexicographic `(i, j)` index order — hence
deterministic on identical input. -/
theorem find_collisions_exact_ordered (objects : List RoomObject) :
    find_collisions objects = pairwiseCollisionsSpec objects := by
  unfold pairwiseCollisionsSpec
  have henum : objects.enum = objects.enumFrom 0 := rfl
  rw [henum]
  exact (pairwise_enumFrom_eq_find_collisions objects 0).symm

/-- Python `int()` applied to a rational: truncation toward zero. -/
def pyTrunc (q : ℚ) : ℤ := if 0 ≤ q then ⌊q⌋ else -⌊-q⌋

/-- `_convert_box_2d_to_bbox` from `agents/vision_node.py`: clamp the four
detector coordinates to `[0, 1000]`, scale by the image pixel size, take
`int(...)`, then force width and height to be at least 1. -/
def convert_box_2d_to_bbox (box_2d : List Int)
    (image_width image_height : Int) : List Int :=
  let ymin := box_2d.getD 0 0
  let xmin := box_2d.getD 1 0
  let ymax := box_2d.getD 2 0
  let xmax := box_2d.getD 3 0
  let ymin := max 0 (min 1000 ymin)
  let xmin := max 0 (min 1000 xmin)
  let ymax := max 0 (min 1000 ymax)
  let xmax := max 0 (min 1000 xmax)
  let x := pyTrunc ((xmin : ℚ) / 1000 * (image_width : ℚ))
  let y := pyTrunc ((ymin : ℚ) / 1000 * (image_height : ℚ))
  let width := pyTrunc (((xmax - xmin : ℤ) : ℚ) / 1000 * (image_width : ℚ))
  let height := pyTrunc (((ymax - ymin : ℤ) : ℚ) / 1000 * (image_height : ℚ))
  let width := max 1 width
  let height := max 1 height
  [x, y, width, height]

/-- The conversion contract as the spec words it: clamp each of the four
coordinates to `[0,1000]`, scale by the image dimensions
(`x = xmin/1000*W`, `y = ymin/1000*H`, `width = (xmax-xmin)/1000*W`,
`height = (ymax-ymin)/1000*H`, truncated to integers), then enforce a
minimum of 1 for both width and height of the resulting bbox. -/
def visionConversionContract (box_2d : List Int) (W H : Int) : List Int :=
  let clamp : Int → Int := fun v => max 0 (min 1000 v)
  let ymin := clamp (box_2d.getD 0 0)
  let xmin := clamp (box_2d.getD 1 0)
  let ymax := clamp (box_2d.getD 2 0)
  let xmax := clamp (box_2d.getD 3 0)
  [pyTrunc ((xmin : ℚ) / 1000 * (W : ℚ)),
    pyTrunc ((ymin : ℚ) / 1000 * (H : ℚ)),
    max 1 (pyTrunc (((xmax - xmin : ℤ) : ℚ) / 1000 * (W : ℚ))),
    max 1 (pyTrunc (((ymax - ymin : ℤ) : ℚ) / 1000 * (H : ℚ)))]

/-- C8: for every detector box and positive image dimensions, the vision
conversion realizes exactly the clamp/scale/truncate/minimum-1 contract
stated in the spec. -/
theorem convert_box_realizes_contract (b0 b1 b2 b3 : Int) (W H : Int)
    (hW : 0 < W) (hH : 0 < H) :
    convert_box_2d_to_bbox [b0, b1, b2, b3] W H =
      visionConversionContract [b0, b1, b2, b3] W H := rfl

/-- Witness for C8 at a concrete detector box on a 400×200 image. -/
theorem convert_box_realizes_contract_witness :
    0 < (400 : Int) ∧ 0 < (200 : Int) ∧
    convert_box_2d_to_bbox [250, 100, 750, 600] 400 200 =
      visionConversionContract [250, 100, 750, 600] 400 200 :=
  ⟨by decide, by decide, convert_box_realizes_contract 250 100 750 600 400 200
    (by decide) (by decide)⟩

/-- `RoomDimensions` from `models/room.py`: width and height estimates,
both validated `gt=0`. -/
structure RoomDimensions where
  width_estimate : Int
  height_estimate : Int
deriving DecidableEq, Repr

/-- `OptimizeRequest` from `models/api.py`. -/
structure OptimizeRequest where
  current_layout : List RoomObject
  locked_ids : List String
  room_dimensions : RoomDimensions
  max_iterations : Int := 5
deriving DecidableEq, Repr

/-- The locked-marking loop at the start of `optimize_layout` in
`routes/optimize.py` (`for obj in request.current_layout: if obj.id in
request.locked_ids: obj.is_locked = True`), modelled as the state of the
shared input list after the loop runs. -/
def mark_locked (layout : List RoomObject) (locked_ids : List String) :
    List RoomObject :=
  layout.map fun obj =>
    if obj.id ∈ locked_ids then { obj with is_locked := true } else obj

/-- Object used to exhibit the in-place lock mutation. -/
def lockDemo : RoomObject := ⟨"bed_1", "bed", [0, 0, 100, 100], .movable, 0, false⟩

/-- C4 counterexample: with `locked_ids = ["bed_1"]` the optimize route
leaves the input object with a different `is_locked` field than it had
before the call, so the input layout is mutated in place. -/
theorem optimize_mutates_locked_input :
    mark_locked [lockDemo] ["bed_1"] ≠ [lockDemo] ∧
    (mark_locked [lockDemo] ["bed_1"]).map RoomObject.is_locked = [true] ∧
    lockDemo.is_locked = false := by
  refine ⟨?_, by decide, by decide⟩
  decide

/-- C4 amended: the optimize route's marking loop rewrites only the
`is_locked` field of the shared input objects — an object keeps its
`bbox`, `label`, `type` and `orientation`, and its `is_locked` becomes
true exactly when it already was or its id is in `locked_ids`. -/
theorem mark_locked_only_sets_lock_flag (layout : List RoomObject)
    (locked_ids : List String) :
    mark_locked layout locked_ids =
      layout.map fun o =>
        { o with is_locked := o.is_locked || decide (o.id ∈ locked_ids) } := by
  unfold mark_locked
  apply List.map_congr_left
  intro o _
  by_cases h : o.id ∈ locked_ids
  · simp [h]
  · simp [h]

/-- Pydantic validation of `RoomDimensions` (`models/room.py`): both
estimates are constrained `gt=0`. -/
def validRoomDimensions (d : RoomDimensions) : Bool :=
  decide (0 < d.width_estimate) && decide (0 < d.height_estimate)

/-- Pydantic validation of `RoomObject` (`models/room.py`): the bbox list
has exactly 4 entries (`min_length=4, max_length=4`) and the orientation
lies in `[0, 360)` (`ge=0, lt=360`).  No constraint is placed on the bbox
entries themselves and none relates different objects. -/
def validRoomObject (o : RoomObject) : Bool :=
  decide (o.bbox.length = 4) && decide (0 ≤ o.orientation) &&
    decide (o.orientation < 360)

/-- Pydantic validation of `OptimizeRequest` (`models/api.py`): every
layout object valid, room dimensions valid, and
`1 ≤ max_iterations ≤ 20` (`ge=1, le=20`). -/
def validOptimizeRequest (r : OptimizeRequest) : Bool :=
  r.current_layout.all validRoomObject &&
    validRoomDimensions r.room_dimensions &&
    decide (1 ≤ r.max_iterations) && decide (r.max_iterations ≤ 20)

/-- A request with a zero-size bbox, a negative-width bbox and a
duplicated object id. -/
def degenerateRequest : OptimizeRequest :=
  { current_layout :=
      [⟨"bed_1", "bed", [0, 0, 0, 0], .movable, 0, false⟩,
        ⟨"bed_1", "desk", [10, 10, -5, 20], .movable, 0, false⟩],
    locked_ids := [],
    room_dimensions := ⟨300, 400⟩,
    max_iterations := 5 }

/-- C5 counterexample: a request with zero/negative bbox dimensions and a
duplicate object id passes input validation — it is not rejected before
optimization work starts. -/
theorem malformed_optimize_input_accepted :
    validOptimizeRequest degenerateRequest = true ∧
    ¬ (degenerateRequest.current_layout.map RoomObject.id).Nodup ∧
    (∃ o ∈ degenerateRequest.current_layout, o.width ≤ 0) := by
  refine ⟨by decide, by decide, ?_⟩
  decide

/-- C5 amended: input validation of the optimize operation rejects exactly
non-positive room dimensions, malformed objects (bbox not of length 4,
orientation outside `[0,360)`) and an out-of-range iteration budget; it
accepts zero or negative bbox width/height and duplicate object ids. -/
theorem optimize_input_validation_characterization (r : OptimizeRequest) :
    validOptimizeRequest r = true ↔
      ((∀ o ∈ r.current_layout,
          o.bbox.length = 4 ∧ 0 ≤ o.orientation ∧ o.orientation < 360) ∧
        0 < r.room_dimensions.width_estimate ∧
        0 < r.room_dimensions.height_estimate ∧
        1 ≤ r.max_iterations ∧ r.max_iterations ≤ 20) := by
  unfold validOptimizeRequest validRoomDimensions validRoomObject
  simp [List.all_eq_true, and_assoc]

/-- Bed area as computed in `_deduplicate_beds_and_sofas`
(`agents/vision_node.py`): `w * h` with `w, h = obj.bbox[2], obj.bbox[3]`. -/
def bedArea (o : RoomObject) : Int := o.width * o.height

/-- Bed aspect as computed in `_deduplicate_beds_and_sofas`:
`min(w, h) / max(w, h) if max(w, h) > 0 else 1`. -/
def bedAspect (o : RoomObject) : ℚ :=
  if 0 < max o.width o.height then
    ((min o.width o.height : Int) : ℚ) / ((max o.width o.height : Int) : ℚ)
  else 1

/-- Head of Python's stable descending sort of the beds by area: the
earliest bed achieving the maximal area. -/
def primaryBed (b : RoomObject) (rest : List RoomObject) : RoomObject :=
  rest.foldl (fun best o => if bedArea best < bedArea o then o else best) b

/-- The `should_reclassify` decision of `_deduplicate_beds_and_sofas`:
area below 60% of the primary bed's, very elongated aspect (< 0.4), or
more than two beds in total. -/
def shouldReclassify (numBeds : ℕ) (primaryArea : Int) (o : RoomObject) : Bool :=
  decide ((bedArea o : ℚ) < (primaryArea : ℚ) * (6 / 10)) ||
    decide (bedAspect o < 4 / 10) || decide (2 < numBeds)

/-- The object loop of `_deduplicate_beds_and_sofas`.  A non-primary bed
that `should_reclassify` makes Python evaluate `obj.z_index` while
building the replacement `RoomObject`; `RoomObject` (`models/room.py`)
defines no such field, so the call raises `AttributeError` there.  All
other objects are appended to the output unchanged. -/
def dedupLoop (primaryId : String) (primaryArea : Int) (numBeds : ℕ) :
    List RoomObject → Except String (List RoomObject)
  | [] => .ok []
  | o :: rest =>
      if o.label = "bed" ∧ o.id ≠ primaryId then
        if shouldReclassify numBeds primaryArea o then
          .error "AttributeError: RoomObject object has no attribute z_index"
        else (dedupLoop primaryId primaryArea numBeds rest).map (o :: ·)
      else (dedupLoop primaryId primaryArea numBeds rest).map (o :: ·)

/-- `_deduplicate_beds_and_sofas` from `agents/vision_node.py`: with at
most one "bed" label the input list is returned as is; otherwise the
largest bed is kept and every other bed is tested for reclassification,
which (because `RoomObject` has no `z_index`/`material_hint` fields)
raises instead of producing the relabelled sofa. -/
def deduplicate_beds_and_sofas (objects : List RoomObject) :
    Except String (List RoomObject) :=
  match objects.filter (fun o => o.label = "bed") with
  | [] => .ok objects
  | [_] => .ok objects
  | b :: rest =>
      dedupLoop (primaryBed b rest).id (bedArea (primaryBed b rest))
        (b :: rest).length objects

/-- The larger of the two beds of the C9 failing input. -/
def bedBig : RoomObject := ⟨"bed_1", "bed", [0, 0, 100, 100], .movable, 0, false⟩

/-- The smaller of the two beds of the C9 failing input: area 2500 is
below 60% of 10000, so it is selected for reclassification. -/
def bedSmall : RoomObject := ⟨"bed_2", "bed", [0, 0, 50, 50], .movable, 0, false⟩

/-- C9 (code bug): on a list with two beds of areas 10000 and 2500 the
duplicate-bed post-processing does not return a new list with the second
bed relabelled "sofa" — it raises `AttributeError`, because the
reclassification branch reads `obj.z_index` and `obj.material_hint`,
fields `RoomObject` does not define. -/
theorem dedup_raises_instead_of_reclassifying :
    deduplicate_beds_and_sofas [bedBig, bedSmall] =
      .error "AttributeError: RoomObject object has no attribute z_index" := by
  norm_num [deduplicate_beds_and_sofas, dedupLoop, primaryBed, bedArea,
    bedAspect, shouldReclassify, bedBig, bedSmall, RoomObject.width,
    RoomObject.height, List.filter, min_def, max_def]
  rw [if_neg (show ¬ ("bed_2" = "bed_1") by decide)]
  rfl

/-- `RenderRequest` from `models/api.py`. -/
structure RenderRequest where
  original_image_base64 : String
  final_layout : List RoomObject
  original_layout : List RoomObject
deriving DecidableEq, Repr

/-- `RenderResponse` from `models/api.py`. -/
structure RenderResponse where
  image_url : Option String
  image_base64 : Option String
  message : String
deriving DecidableEq, Repr

/-- One entry of the `changes` list built in `render_layout`
(`routes/render.py`). -/
structure LayoutChange where
  object_id : String
  label : String
  moveFrom : List Int
  moveTo : List Int
deriving DecidableEq, Repr

/-- `original_positions = {obj.id: obj.bbox for obj in
request.original_layout}`: a later duplicate id overwrites an earlier
one, so the lookup returns the bbox of the last object with that id. -/
def original_positions (req : RenderRequest) (id : String) :
    Option (List Int) :=
  (req.original_layout.reverse.find? (fun o => o.id == id)).map (·.bbox)

/-- The change-detection loop of `render_layout`: one change per object
of `final_layout` whose id has an original bbox different from its
current bbox. -/
def render_changes (req : RenderRequest) : List LayoutChange :=
  req.final_layout.filterMap fun o =>
    match original_positions req o.id with
    | some b => if b ≠ o.bbox then some ⟨o.id, o.label, b, o.bbox⟩ else none
    | none => none

/-- Outcome of `render_layout` up to its short-circuit decision: either
the unchanged-layout response is returned immediately, or the route goes
on to build edit masks and call the image-editing collaborator. -/
inductive RenderOutcome where
  | unchanged (resp : RenderResponse)
  | invokeEditor (changes : List LayoutChange)
deriving DecidableEq, Repr

/-- `render_layout` from `routes/render.py`, up to the point where the
image editor would be invoked. -/
def render_layout (req : RenderRequest) : RenderOutcome :=
  if render_changes req = [] then
    .unchanged ⟨none, none, "No changes to render. Layout is unchanged."⟩
  else .invokeEditor (render_changes req)

/-- C10: when no object of the final layout moved relative to the
original layout, the render route returns the no-change response with
null image fields and does not reach the image-editing collaborator. -/
theorem render_short_circuits_when_unchanged (req : RenderRequest)
    (h : ∀ o ∈ req.final_layout, ∀ orig ∈ req.original_layout,
      orig.id = o.id → orig.bbox = o.bbox) :
    render_layout req =
      .unchanged ⟨none, none, "No changes to render. Layout is unchanged."⟩ := by
  unfold render_layout
  have hc : render_changes req = [] := by
    unfold render_changes
    rw [List.filterMap_eq_nil_iff]
    intro o ho
    cases hfind : original_positions req o.id with
    | none => simp [hfind]
    | some b =>
        have hb : b = o.bbox := by
          unfold original_positions at hfind
          cases hfind2 : req.original_layout.reverse.find? (fun x => x.id == o.id) with
          | none => rw [hfind2] at hfind; simp at hfind
          | some orig =>
              rw [hfind2] at hfind
              have hob : orig.bbox = b := by simpa using hfind
              have hmem : orig ∈ req.original_layout :=
                List.mem_reverse.mp (List.mem_of_find?_eq_some hfind2)
              have hid : orig.id = o.id := by
                have hp := List.find?_some hfind2
                simpa using hp
              exact hob.symm.trans (h o ho orig hmem hid)
        simp [hfind, hb]
  rw [hc]
  simp

/-- Witness for C10: a request whose final layout equals its original
layout short-circuits with the no-change response. -/
theorem render_short_circuits_when_unchanged_witness :
    (∀ o ∈ [lockDemo], ∀ orig ∈ [lockDemo],
      orig.id = o.id → orig.bbox = o.bbox) ∧
    render_layout ⟨"img", [lockDemo], [lockDemo]⟩ =
      .unchanged ⟨none, none, "No changes to render. Layout is unchanged."⟩ :=
  ⟨by decide, render_short_circuits_when_unchanged ⟨"img", [lockDemo], [lockDemo]⟩
    (by decide)⟩

/-- A point of the plane with rational coordinates. -/
abbrev Point := ℚ × ℚ

/-- Signed area orientation test: positive when `c` lies to the left of
the directed line `a → b`. -/
def cross2d (a b c : Point) : ℚ :=
  (b.1 - a.1) * (c.2 - a.2) - (b.2 - a.2) * (c.1 - a.1)

/-- A collinear point `r` lies within the coordinate span of segment
`p q`. -/
def onSpan (p q r : Point) : Bool :=
  decide (min p.1 q.1 ≤ r.1) && decide (r.1 ≤ max p.1 q.1) &&
    decide (min p.2 q.2 ≤ r.2) && decide (r.2 ≤ max p.2 q.2)

/-- Closed segments `p1 p2` and `p3 p4` share a point (standard
orientation-based test, touching included). -/
def segmentsIntersect (p1 p2 p3 p4 : Point) : Bool :=
  let d1 := cross2d p3 p4 p1
  let d2 := cross2d p3 p4 p2
  let d3 := cross2d p1 p2 p3
  let d4 := cross2d p1 p2 p4
  ((decide (0 < d1) && decide (d2 < 0) || decide (d1 < 0) && decide (0 < d2)) &&
    (decide (0 < d3) && decide (d4 < 0) || decide (d3 < 0) && decide (0 < d4))) ||
    decide (d1 = 0) && onSpan p3 p4 p1 ||
    decide (d2 = 0) && onSpan p3 p4 p2 ||
    decide (d3 = 0) && onSpan p1 p2 p3 ||
    decide (d4 = 0) && onSpan p1 p2 p4

/-- The point lies in the closed rectangle. -/
def pointInRect (p : Point) (r : Rect) : Bool :=
  decide (r.minx ≤ p.1) && decide (p.1 ≤ r.maxx) &&
    decide (r.miny ≤ p.2) && decide (p.2 ≤ r.maxy)

/-- Squared distance from a point to a closed segment: clamp the
orthogonal projection parameter to `[0, 1]`. -/
def ptSegDistSq (p a b : Point) : ℚ :=
  let dx := b.1 - a.1
  let dy := b.2 - a.2
  let len2 := dx ^ 2 + dy ^ 2
  if len2 = 0 then (p.1 - a.1) ^ 2 + (p.2 - a.2) ^ 2
  else
    let t := max 0 (min 1 (((p.1 - a.1) * dx + (p.2 - a.2) * dy) / len2))
    (p.1 - (a.1 + t * dx)) ^ 2 + (p.2 - (a.2 + t * dy)) ^ 2

/-- Squared distance from a point to a closed axis-aligned rectangle:
clamp each coordinate into the rectangle. -/
def ptRectDistSq (p : Point) (r : Rect) : ℚ :=
  (p.1 - max r.minx (min r.maxx p.1)) ^ 2 +
    (p.2 - max r.miny (min r.maxy p.2)) ^ 2

/-- The closed segment `a b` meets the closed rectangle: an endpoint lies
inside, or the segment crosses one of the four edges. -/
def segMeetsRect (a b : Point) (r : Rect) : Bool :=
  pointInRect a r || pointInRect b r ||
    segmentsIntersect a b (r.minx, r.miny) (r.maxx, r.miny) ||
    segmentsIntersect a b (r.maxx, r.miny) (r.maxx, r.maxy) ||
    segmentsIntersect a b (r.maxx, r.maxy) (r.minx, r.maxy) ||
    segmentsIntersect a b (r.minx, r.maxy) (r.minx, r.miny)

/-- Squared Euclidean distance between a closed segment and a closed
axis-aligned rectangle: zero when they meet; otherwise, both being
convex, the minimum is attained between a vertex of one and the boundary
of the other. -/
def segRectDistSq (a b : Point) (r : Rect) : ℚ :=
  if segMeetsRect a b r then 0
  else
    min (ptRectDistSq a r) (min (ptRectDistSq b r)
      (min (ptSegDistSq (r.minx, r.miny) a b)
        (min (ptSegDistSq (r.maxx, r.miny) a b)
          (min (ptSegDistSq (r.maxx, r.maxy) a b)
            (ptSegDistSq (r.minx, r.maxy) a b)))))

/-- `path_corridor.intersects(poly)` in `is_path_blocked`
(`core/geometry.py`): the corridor is the walking segment buffered by
`path_width / 2`, so it meets the obstacle rectangle exactly when the
segment comes within `path_width / 2` of it. -/
def corridorHit (start stop : Point) (path_width : ℚ) (o : RoomObject) : Bool :=
  decide (segRectDistSq start stop (object_to_polygon o) ≤ (path_width / 2) ^ 2)

/-- `is_path_blocked` from `core/geometry.py`: walk the obstacles in
input order, skipping objects with `type == "structural"` and
`label == "door"`; return `(True, obj.id)` at the first obstacle whose
rectangle meets the buffered corridor, else `(False, None)`. -/
def is_path_blocked (start stop : Point) (obstacles : List RoomObject)
    (path_width : ℚ := 45) : Bool × Option String :=
  match obstacles with
  | [] => (false, none)
  | o :: rest =>
      if o.type = ObjectType.structural ∧ o.label = "door" then
        is_path_blocked start stop rest path_width
      else if corridorHit start stop path_width o then (true, some o.id)
      else is_path_blocked start stop rest path_width

/-- A door object whose type is movable rather than structural: the skip
test of `is_path_blocked` does not apply to it. -/
def movableDoor : RoomObject := ⟨"door_1", "door", [0, 0, 10, 10], .movable, 0, false⟩

/-- C3 counterexample: a door object (label "door") of movable type lying
on the walking path is returned as the blocker, so `is_path_blocked` can
return a door object. -/
theorem door_returned_as_blocker :
    movableDoor.label = "door" ∧
    is_path_blocked (5, 5) (20, 5) [movableDoor] 45 =
      (true, some "door_1") := by
  constructor
  · rfl
  · show (if movableDoor.type = ObjectType.structural ∧ movableDoor.label = "door" then
        is_path_blocked (5, 5) (20, 5) [] 45
      else if corridorHit (5, 5) (20, 5) 45 movableDoor then
        (true, some movableDoor.id)
      else is_path_blocked (5, 5) (20, 5) [] 45) = (true, some "door_1")
    have hhit : corridorHit (5, 5) (20, 5) 45 movableDoor = true := by
      norm_num [corridorHit, segRectDistSq, segMeetsRect, pointInRect,
        object_to_polygon, bbox_to_polygon, movableDoor]
    rw [if_neg (by decide : ¬ (movableDoor.type = ObjectType.structural ∧
      movableDoor.label = "door"))]
    rw [if_pos hhit]
    rfl

/-- C3 amended: `is_path_blocked` never returns an obstacle that is a
structural door; it returns `(true, id)` for the first obstacle in input
order that is not a structural door and meets the buffered corridor, and
`(false, none)` when there is none. -/
theorem is_path_blocked_first_nondoor_hit (start stop : Point)
    (obstacles : List RoomObject) (w : ℚ) :
    is_path_blocked start stop obstacles w =
      match obstacles.find? (fun o =>
        !decide (o.type = ObjectType.structural ∧ o.label = "door") &&
          corridorHit start stop w o) with
      | some o => (true, some o.id)
      | none => (false, none) := by
  induction obstacles with
  | nil => rfl
  | cons o rest ih =>
      by_cases hd : o.type = ObjectType.structural ∧ o.label = "door"
      · have hcond : (!decide (o.type = ObjectType.structural ∧ o.label = "door") &&
            corridorHit start stop w o) = false := by
          simp [hd]
        have hskip : (o :: rest).find? (fun o =>
            !decide (o.type = ObjectType.structural ∧ o.label = "door") &&
              corridorHit start stop w o) = rest.find? (fun o =>
            !decide (o.type = ObjectType.structural ∧ o.label = "door") &&
              corridorHit start stop w o) := by
          simp only [List.find?_cons]
          rw [hcond]
        rw [is_path_blocked, if_pos hd, hskip]
        exact ih
      · by_cases hh : corridorHit start stop w o = true
        · have hcond : (!decide (o.type = ObjectType.structural ∧ o.label = "door") &&
              corridorHit start stop w o) = true := by
            rw [hh]
            simp [hd]
          have hsome : (o :: rest).find? (fun o =>
              !decide (o.type = ObjectType.structural ∧ o.label = "door") &&
                corridorHit start stop w o) = some o := by
            simp only [List.find?_cons]
            rw [hcond]
          rw [is_path_blocked, if_neg hd, if_pos hh, hsome]
        · have hhf : corridorHit start stop w o = false := by
            simpa using hh
          have hcond : (!decide (o.type = ObjectType.structural ∧ o.label = "door") &&
              corridorHit start stop w o) = false := by
            rw [hhf]
            simp
          have hskip : (o :: rest).find? (fun o =>
              !decide (o.type = ObjectType.structural ∧ o.label = "door") &&
                corridorHit start stop w o) = rest.find? (fun o =>
              !decide (o.type = ObjectType.structural ∧ o.label = "door") &&
                corridorHit start stop w o) := by
            simp only [List.find?_cons]
            rw [hcond]
          rw [is_path_blocked, if_neg hd, if_neg (by simp [hhf]), hskip]
          exact ih

end PocketPlanner
